import Mathlib

/-!
Verification of the ESP32 WiFi bridge firmware
(`src/firmware/esp32-wifi/src/main.cpp`) against its specification.

The firmware is shallowly embedded: the serial line accumulator and the
TCP inbound poller from `loop()`, and the command dispatcher
`processCommand` with its handlers (`connectToWiFi`, `getStatus`,
`scanNetworks`, `connectTCP`, `sendTCP`), are translated to total Lean
functions over `List Char`.  The external collaborators (the WiFi stack
and the TCP client) are modelled by an explicit environment `Env`; the
calls the firmware makes into them are recorded in an `Effects` record.
-/

set_option maxRecDepth 4096

/-- Character list of a string literal (convenience for writing byte data). -/
def chars (s : String) : List Char := s.toList

/-- Line terminator test from `loop()`: `c == '\n' || c == '\r'`. -/
def isTermB (c : Char) : Bool := c = '\n' || c = '\r'

/-- C `isspace`, used by Arduino `String::trim`. -/
def isSpaceC (c : Char) : Bool :=
  c = ' ' || c = '\t' || c = '\n' || c = '\x0b' || c = '\x0c' || c = '\r'

/--
The Line Accumulator of `loop()` (main.cpp lines 49-66), run over a whole
input byte sequence fed one byte at a time, starting from buffer `buf`.
Returns the list of complete lines handed to `processCommand`, in order,
together with the final contents of `serialBuffer`.
On a terminator byte the buffer is emitted only if non-empty and then
cleared; any other byte is appended.
-/
def runAccum : List Char → List Char → List (List Char) × List Char
  | buf, [] => ([], buf)
  | buf, c :: rest =>
    if isTermB c then
      if buf.isEmpty then runAccum [] rest
      else (buf :: (runAccum [] rest).1, (runAccum [] rest).2)
    else runAccum (buf ++ [c]) rest

/--
Modelled from the spec: splitting a byte sequence on terminator bytes,
keeping empty segments (every maximal terminator-free run, including the
possibly empty runs between consecutive terminators and at both ends).
-/
def specSplitRaw : List Char → List (List Char)
  | [] => [[]]
  | c :: rest =>
    if isTermB c then [] :: specSplitRaw rest
    else (c :: (specSplitRaw rest).headI) :: (specSplitRaw rest).tail

/--
Modelled from the spec: the sequence of non-empty substrings obtained by
splitting the input on line-feed and carriage-return and discarding the
empty splits.
-/
def specSplitLines (l : List Char) : List (List Char) :=
  (specSplitRaw l).filter (fun s => !s.isEmpty)

theorem specSplitRaw_cons (c : Char) (rest : List Char) :
    specSplitRaw (c :: rest) =
      if isTermB c then [] :: specSplitRaw rest
      else (c :: (specSplitRaw rest).headI) :: (specSplitRaw rest).tail := rfl

theorem specSplitRaw_ne_nil (l : List Char) : specSplitRaw l ≠ [] := by
  cases l with
  | nil => simp [specSplitRaw]
  | cons c rest =>
    unfold specSplitRaw
    by_cases h : isTermB c <;> simp [h]

theorem specSplitRaw_nosep (buf : List Char)
    (h : (buf.all fun c => !isTermB c) = true) : specSplitRaw buf = [buf] := by
  induction buf with
  | nil => rfl
  | cons c rest ih =>
    simp only [List.all_cons, Bool.and_eq_true, Bool.not_eq_true'] at h
    unfold specSplitRaw
    rw [ih h.2]
    simp [h.1]

theorem specSplitRaw_sep (buf rest : List Char) (t : Char)
    (ht : isTermB t = true) (h : (buf.all fun c => !isTermB c) = true) :
    specSplitRaw (buf ++ t :: rest) = buf :: specSplitRaw rest := by
  induction buf with
  | nil => simp [specSplitRaw, ht]
  | cons c cs ih =>
    simp only [List.all_cons, Bool.and_eq_true, Bool.not_eq_true'] at h
    simp only [List.cons_append]
    rw [specSplitRaw_cons, ih h.2]
    simp [h.1]

/-- The still-buffered residual as a zero-or-one element list. -/
def residualOpt (buf : List Char) : List (List Char) :=
  if buf.isEmpty then [] else [buf]

theorem specSplitLines_nosep (buf : List Char)
    (h : (buf.all fun c => !isTermB c) = true) :
    specSplitLines buf = residualOpt buf := by
  unfold specSplitLines residualOpt
  rw [specSplitRaw_nosep buf h]
  cases buf <;> simp

theorem specSplitLines_sep (buf rest : List Char) (t : Char)
    (ht : isTermB t = true) (h : (buf.all fun c => !isTermB c) = true) :
    specSplitLines (buf ++ t :: rest) = residualOpt buf ++ specSplitLines rest := by
  unfold specSplitLines residualOpt
  rw [specSplitRaw_sep buf rest t ht h]
  cases buf <;> simp

/--
Main invariant of the accumulator: starting from a terminator-free buffer,
the emitted lines followed by the (non-empty) residual buffer are exactly
the non-empty splits of the whole byte sequence, and the final buffer is
terminator-free.
-/
theorem runAccum_spec (input : List Char) : ∀ buf : List Char,
    (buf.all fun c => !isTermB c) = true →
    (runAccum buf input).1 ++ residualOpt (runAccum buf input).2
        = specSplitLines (buf ++ input)
    ∧ ((runAccum buf input).2.all fun c => !isTermB c) = true := by
  induction input with
  | nil =>
    intro buf hbuf
    constructor
    · simp only [runAccum, List.append_nil, List.nil_append]
      exact (specSplitLines_nosep buf hbuf).symm
    · exact hbuf
  | cons c rest ih =>
    intro buf hbuf
    by_cases hc : isTermB c = true
    · by_cases hb : buf.isEmpty
      · have hbnil : buf = [] := by
          cases buf with
          | nil => rfl
          | cons x xs => simp [List.isEmpty] at hb
        subst hbnil
        have h2 := ih [] rfl
        constructor
        · rw [show runAccum [] (c :: rest) = runAccum [] rest from by
                simp [runAccum, hc]]
          rw [h2.1]
          rw [show ([] : List Char) ++ c :: rest = [] ++ c :: rest from rfl]
          rw [specSplitLines_sep [] rest c hc rfl]
          simp [residualOpt]
        · rw [show runAccum [] (c :: rest) = runAccum [] rest from by
                simp [runAccum, hc]]
          exact h2.2
      · have h2 := ih [] rfl
        have hstep : runAccum buf (c :: rest)
            = (buf :: (runAccum [] rest).1, (runAccum [] rest).2) := by
          simp [runAccum, hc, hb]
        constructor
        · rw [hstep]
          simp only []
          rw [specSplitLines_sep buf rest c hc hbuf]
          have hro : residualOpt buf = [buf] := by simp [residualOpt, hb]
          rw [hro]
          simp only [List.cons_append, List.singleton_append]
          rw [h2.1]
          simp
        · rw [hstep]
          exact h2.2
    · have hcf : isTermB c = false := by
        cases h : isTermB c
        · rfl
        · exact absurd h hc
      have hstep : runAccum buf (c :: rest) = runAccum (buf ++ [c]) rest := by
        simp [runAccum, hcf]
      have hext : ((buf ++ [c]).all fun x => !isTermB x) = true := by
        simp [List.all_append, hbuf, hcf]
      have h2 := ih (buf ++ [c]) hext
      constructor
      · rw [hstep, h2.1]
        simp [List.append_assoc]
      · rw [hstep]
        exact h2.2

/-! ### Arduino `String` primitives used by `processCommand` -/

/-- Index of the first element of `l` satisfying `p`, if any. -/
def findIdxC (p : Char → Bool) : List Char → Option Nat
  | [] => none
  | c :: rest => if p c then some 0 else (findIdxC p rest).map (fun j => j + 1)

/-- Arduino `String::indexOf(ch, fromIndex)`: first occurrence of `ch` at
position `i` or later, as an index into the whole string, `-1` if absent. -/
def indexOfFrom (s : List Char) (ch : Char) (i : Nat) : Int :=
  match findIdxC (fun c => c == ch) (s.drop i) with
  | some j => Int.ofNat (i + j)
  | none => -1

/-- Arduino `String::lastIndexOf(ch)`: index of the last occurrence of
`ch`, `-1` if absent. -/
def lastIndexOf (s : List Char) (ch : Char) : Int :=
  match findIdxC (fun c => c == ch) s.reverse with
  | some j => Int.ofNat (s.length - 1 - j)
  | none => -1

/-- Arduino `String::substring(a, b)`: characters at positions `[a, b)`. -/
def subStr (s : List Char) (a b : Nat) : List Char := (s.take b).drop a

/-- Arduino `String::substring(a)`: characters from position `a` on. -/
def subFrom (s : List Char) (a : Nat) : List Char := s.drop a

/-- Arduino `String::trim()`: strip `isspace` bytes from both ends. -/
def trimC (s : List Char) : List Char :=
  ((s.dropWhile isSpaceC).reverse.dropWhile isSpaceC).reverse

/-- Arduino `String::startsWith(pre)` (first argument is the candidate
leading segment). -/
def startsW : List Char → List Char → Bool
  | [], _ => true
  | _ :: _, [] => false
  | p :: ps, c :: cs => if p = c then startsW ps cs else false

/-- Decimal value of a digit run (accumulator form, as `atol` scans). -/
def digitsToNat : List Char → Nat → Nat
  | [], acc => acc
  | c :: rest, acc => digitsToNat rest (acc * 10 + (c.toNat - 48))

/-- C `atol`, the backend of Arduino `String::toInt()`: skip `isspace`
bytes, then an optional sign, then a maximal run of decimal digits; the
result is `0` when no digit follows. -/
def atol (s : List Char) : Int :=
  match s.dropWhile isSpaceC with
  | [] => 0
  | c :: r =>
    if c = '-' then -(Int.ofNat (digitsToNat (r.takeWhile Char.isDigit) 0))
    else if c = '+' then Int.ofNat (digitsToNat (r.takeWhile Char.isDigit) 0)
    else Int.ofNat (digitsToNat ((c :: r).takeWhile Char.isDigit) 0)

/-- Decimal rendering of a signed integer, as `Serial.print(int)` emits it. -/
def intChars (i : Int) : List Char := (toString i).toList

/-- Decimal rendering of a count, as `Serial.print(int)` emits it. -/
def natChars (n : Nat) : List Char := (toString n).toList

/-! ### The environment (external collaborators) and the effect record -/

/-- ESP-IDF `WIFI_AUTH_OPEN`, the open/no-auth cipher value. -/
def WIFI_AUTH_OPEN : Nat := 0

/-- One result of `WiFi.scanNetworks()`: `WiFi.SSID(i)`, `WiFi.RSSI(i)`
and `WiFi.encryptionType(i)`. -/
structure ScanEntry where
  essid : List Char
  rssi : Int
  enc : Nat
deriving DecidableEq

/-- The observable state of the external collaborators (WiFi stack and
TCP client) at the moment a command is handled.  `assocStatus k` is the
answer of the `k`-th `WiFi.status()` poll inside `connectToWiFi`. -/
structure Env where
  wifiConnected : Bool
  ssidName : List Char
  localAddr : List Char
  rssi : Int
  scanList : List ScanEntry
  tcpConnected : Bool
  tcpConnectOK : Bool
  assocStatus : Nat → Bool

/-- The calls the firmware makes into the collaborators while handling
one command: association attempts, teardown and status polls on the WiFi
side, and connect/send/stop on the TCP client, plus total `delay` time. -/
structure Effects where
  wifiBegin : List (List Char × List Char)
  wifiDisconnects : Nat
  wifiStatusCalls : Nat
  scanCalls : Nat
  tcpConnects : List (List Char × Int)
  tcpSends : List (List Char)
  tcpStops : Nat
  delayMs : Nat
deriving DecidableEq

def noEffects : Effects := Effects.mk [] 0 0 0 [] [] 0 0

def wifiQueryEff : Effects := Effects.mk [] 0 1 0 [] [] 0 0

def disconnectEff : Effects := Effects.mk [] 1 0 0 [] [] 0 0

def scanEff : Effects := Effects.mk [] 0 0 1 [] [] 0 0

def tcpStopEff : Effects := Effects.mk [] 0 0 0 [] [] 1 0

/-! ### The command handlers (main.cpp lines 183-285) -/

/-- Number of iterations of the busy-wait loop in `connectToWiFi`
(main.cpp lines 190-196): poll `WiFi.status()`; while not connected and
fewer than `fuel` attempts have been spent, `delay(500)`, print a dot and
poll again. `q` is the index of the next status poll. -/
def pollCount (status : Nat → Bool) : Nat → Nat → Nat
  | _, 0 => 0
  | q, fuel + 1 => if status q then 0 else pollCount status (q + 1) fuel + 1

/-- Handler of `CONNECT` (main.cpp lines 183-209): print the progress
marker, call `WiFi.begin(ssid, password)`, busy-wait on `WiFi.status()`
up to 20 attempts of 500 ms each, then report the final status. -/
def connectToWiFi (env : Env) (sid pw : List Char) : List (List Char) × Effects :=
  ((chars "CONNECTING:" ++ sid)
      :: List.replicate (pollCount env.assocStatus 0 20) '.'
      :: (if env.assocStatus (pollCount env.assocStatus 0 20 + 1)
          then [chars "OK:Connected", chars "IP:" ++ env.localAddr]
          else [chars "ERROR:Connection failed"]),
    Effects.mk [(sid, pw)] 0 (pollCount env.assocStatus 0 20 + 2) 0 [] []
      0 (500 * pollCount env.assocStatus 0 20))

/-- Handler of `STATUS` (main.cpp lines 211-228). -/
def getStatus (env : Env) : List (List Char) × Effects :=
  if env.wifiConnected then
    ([chars "STATUS:CONNECTED",
      chars "SSID:" ++ env.ssidName,
      chars "IP:" ++ env.localAddr,
      chars "RSSI:" ++ intChars env.rssi ++ chars " dBm"], wifiQueryEff)
  else ([chars "STATUS:DISCONNECTED"], wifiQueryEff)

/-- The per-network print loop of `scanNetworks`
(main.cpp lines 245-253), in provider order. -/
def scanLinesOut : List ScanEntry → List (List Char)
  | [] => []
  | e :: rest =>
    (chars "NETWORK:" ++ e.essid ++ chars ":" ++ intChars e.rssi ++ chars ":"
        ++ (if e.enc = WIFI_AUTH_OPEN then chars "OPEN" else chars "SECURED"))
      :: scanLinesOut rest

/-- Handler of `SCAN` (main.cpp lines 230-255). -/
def scanNetworks (env : Env) : List (List Char) × Effects :=
  if env.scanList.length = 0 then
    ([chars "SCANNING...", chars "SCAN:No networks found"], scanEff)
  else
    (chars "SCANNING..."
        :: (chars "SCAN:Found " ++ natChars env.scanList.length ++ chars " networks")
        :: scanLinesOut env.scanList, scanEff)

/-- Handler of `TCPCONNECT` (main.cpp lines 257-272). -/
def connectTCP (env : Env) (host : List Char) (port : Int) : List (List Char) × Effects :=
  ((chars "TCP:Connecting to " ++ host ++ chars ":" ++ intChars port)
      :: (if env.tcpConnectOK then [chars "OK:TCP connected"]
          else [chars "ERROR:TCP connection failed"]),
    Effects.mk [] 0 0 0 [(host, port)] [] 0 0)

/-- Handler of `TCPSEND` (main.cpp lines 274-285). -/
def sendTCP (env : Env) (data : List Char) : List (List Char) × Effects :=
  if env.tcpConnected then ([chars "OK:Data sent"], Effects.mk [] 0 0 0 [] [data] 0 0)
  else ([chars "ERROR:Not connected"], noEffects)

/-- `processCommand` after the initial `cmd.trim()`
(main.cpp lines 90-180): the verb dispatch chain, in source order. -/
def processCmdTrimmed (env : Env) (cmd : List Char) : List (List Char) × Effects :=
  if startsW (chars "CONNECT:") cmd then
    (if indexOfFrom cmd ':' 8 > 0 then
       connectToWiFi env (subStr cmd 8 (indexOfFrom cmd ':' 8).toNat)
         (subFrom cmd ((indexOfFrom cmd ':' 8).toNat + 1))
     else ([chars "ERROR:Invalid CONNECT format. Use CONNECT:SSID:PASSWORD"], noEffects))
  else if cmd = chars "STATUS" then getStatus env
  else if cmd = chars "SCAN" then scanNetworks env
  else if cmd = chars "DISCONNECT" then ([chars "OK:Disconnected"], disconnectEff)
  else if startsW (chars "TCPCONNECT:") cmd then
    (if lastIndexOf cmd ':' > 11 then
       connectTCP env (subStr cmd 11 (lastIndexOf cmd ':').toNat)
         (atol (subFrom cmd ((lastIndexOf cmd ':').toNat + 1)))
     else ([chars "ERROR:Invalid TCPCONNECT format"], noEffects))
  else if startsW (chars "TCPSEND:") cmd then sendTCP env (subFrom cmd 8)
  else if cmd = chars "TCPCLOSE" then
    (if env.tcpConnected then ([chars "OK:TCP connection closed"], tcpStopEff)
     else ([chars "ERROR:No active TCP connection"], noEffects))
  else if cmd = chars "IP" then
    (if env.wifiConnected then ([chars "IP:" ++ env.localAddr], wifiQueryEff)
     else ([chars "ERROR:Not connected to WiFi"], wifiQueryEff))
  else ([chars "ERROR:Unknown command: " ++ cmd], noEffects)

/-- `processCommand(cmd)` (main.cpp line 85): trim, then dispatch. -/
def processCommand (env : Env) (raw : List Char) : List (List Char) × Effects :=
  processCmdTrimmed env (trimC raw)

/-- The inbound-data poller of `loop()` (main.cpp lines 68-79): when the
TCP client is connected and has buffered bytes, drain them all into one
`TCPDATA:` line; otherwise leave the buffer alone.  Returns the emitted
lines and the inbound bytes still buffered afterwards. -/
def drainAll : List Char → List Char → List Char
  | acc, [] => acc
  | acc, c :: rest => drainAll (acc ++ [c]) rest

def pollInbound (connected : Bool) (avail : List Char) : List (List Char) × List Char :=
  if connected && !avail.isEmpty then
    ([chars "TCPDATA:" ++ drainAll [] avail], [])
  else ([], avail)

/-- A sample collaborator state: nothing associated, no TCP peer. -/
def envA : Env := Env.mk false [] [] 0 [] false false (fun _ => false)

/-! ### Helper lemmas about the string primitives -/

theorem findIdxC_app_none (p : Char → Bool) (xs ys : List Char)
    (h : (xs.all fun c => !p c) = true) :
    findIdxC p (xs ++ ys) = (findIdxC p ys).map (fun j => j + xs.length) := by
  induction xs with
  | nil =>
    cases h2 : findIdxC p ys <;> simp [h2]
  | cons x xs ih =>
    simp only [List.all_cons, Bool.and_eq_true, Bool.not_eq_true'] at h
    rw [List.cons_append]
    have hstep : findIdxC p (x :: (xs ++ ys))
        = (findIdxC p (xs ++ ys)).map (fun j => j + 1) := by
      simp [findIdxC, h.1]
    rw [hstep, ih h.2]
    cases h2 : findIdxC p ys <;> simp [Nat.add_assoc]

theorem findIdxC_none (p : Char → Bool) (xs : List Char)
    (h : (xs.all fun c => !p c) = true) : findIdxC p xs = none := by
  induction xs with
  | nil => rfl
  | cons x xs ih =>
    simp only [List.all_cons, Bool.and_eq_true, Bool.not_eq_true'] at h
    simp [findIdxC, h.1, ih h.2]

theorem findIdxC_cons_true (p : Char → Bool) (c : Char) (ys : List Char)
    (h : p c = true) : findIdxC p (c :: ys) = some 0 := by
  simp [findIdxC, h]

theorem takeApp (xs ys : List Char) (n : Nat) (h : n = xs.length) :
    (xs ++ ys).take n = xs := by
  subst h
  induction xs with
  | nil => rfl
  | cons x xs ih => simp [List.take_succ_cons, ih]

theorem dropApp (xs ys : List Char) (n : Nat) (h : n = xs.length) :
    (xs ++ ys).drop n = ys := by
  subst h
  induction xs with
  | nil => rfl
  | cons x xs ih => simp [ih]

theorem dropWhile_app_stop (p : Char → Bool) (xs ys : List Char) (y : Char)
    (hy : p y = false) :
    List.dropWhile p (xs ++ y :: ys) = List.dropWhile p xs ++ y :: ys := by
  induction xs with
  | nil => simp [List.dropWhile, hy]
  | cons x xs ih =>
    cases hx : p x <;> simp [List.dropWhile, hx, ih]

theorem allNot_dropWhile (p q : Char → Bool) (l : List Char)
    (h : (l.all fun c => !p c) = true) :
    ((l.dropWhile q).all fun c => !p c) = true := by
  induction l with
  | nil => rfl
  | cons x xs ih =>
    simp only [List.all_cons, Bool.and_eq_true] at h
    cases hx : q x
    · simp [List.dropWhile, hx, h.1, h.2]
    · simp only [List.dropWhile, hx]
      exact ih h.2

theorem takeWhile_nil_of_allNot (p : Char → Bool) (l : List Char)
    (h : (l.all fun c => !p c) = true) : l.takeWhile p = [] := by
  cases l with
  | nil => rfl
  | cons x xs =>
    simp only [List.all_cons, Bool.and_eq_true, Bool.not_eq_true'] at h
    simp [List.takeWhile, h.1]

/-- A port field containing no decimal digit at all is read as `0`. -/
theorem atol_zero (pf : List Char) (h : (pf.all fun c => !c.isDigit) = true) :
    atol pf = 0 := by
  unfold atol
  have hall : ((pf.dropWhile isSpaceC).all fun c => !c.isDigit) = true :=
    allNot_dropWhile _ _ _ h
  cases hd : pf.dropWhile isSpaceC with
  | nil => rfl
  | cons c r =>
    rw [hd] at hall
    simp only [List.all_cons, Bool.and_eq_true] at hall
    have hr : r.takeWhile Char.isDigit = [] :=
      takeWhile_nil_of_allNot _ _ hall.2
    have hcr : (c :: r).takeWhile Char.isDigit = [] :=
      takeWhile_nil_of_allNot _ _ (by simp [List.all_cons, hall.1, hall.2])
    by_cases h1 : c = '-' <;> by_cases h2 : c = '+' <;>
      simp [h1, h2, hr, hcr, digitsToNat]

theorem drainAll_eq (l acc : List Char) : drainAll acc l = acc ++ l := by
  induction l generalizing acc with
  | nil => simp [drainAll]
  | cons c rest ih => simp [drainAll, ih]

theorem pollCount_le (status : Nat → Bool) (fuel q : Nat) :
    pollCount status q fuel ≤ fuel := by
  induction fuel generalizing q with
  | zero => exact Nat.le_refl 0
  | succ n ih =>
    unfold pollCount
    cases status q
    · simpa using Nat.succ_le_succ (ih (q + 1))
    · simp

theorem scanLinesOut_map (l : List ScanEntry) :
    scanLinesOut l = l.map (fun e =>
      chars "NETWORK:" ++ e.essid ++ chars ":" ++ intChars e.rssi ++ chars ":"
        ++ (if e.enc = WIFI_AUTH_OPEN then chars "OPEN" else chars "SECURED")) := by
  induction l with
  | nil => rfl
  | cons e rest ih => simp [scanLinesOut, ih]

/-- `trim` leaves a command that begins with the non-blank verb
`TCPSEND:` in `TCPSEND:`-prefixed shape: only the tail is right-trimmed. -/
theorem trimC_tcpsend (q : List Char) :
    trimC (chars "TCPSEND:" ++ q)
      = chars "TCPSEND:" ++ (q.reverse.dropWhile isSpaceC).reverse := by
  unfold trimC
  rw [show List.dropWhile isSpaceC (chars "TCPSEND:" ++ q) = chars "TCPSEND:" ++ q
        from rfl]
  rw [List.reverse_append]
  rw [show (chars "TCPSEND:").reverse = ':' :: chars "DNESPCT" from rfl]
  rw [dropWhile_app_stop isSpaceC q.reverse (chars "DNESPCT") ':' rfl]
  rw [List.reverse_append]
  rfl

theorem all_rev (p : Char → Bool) (l : List Char) (h : l.all p = true) :
    l.reverse.all p = true := by
  rw [List.all_eq_true] at h ⊢
  intro c hc
  exact h c (List.mem_reverse.mp hc)

theorem len_connect_verb : (chars "CONNECT:").length = 8 := rfl

theorem len_tcpconnect_verb : (chars "TCPCONNECT:").length = 11 := rfl

/-! ### Entering the dispatch branches

Each lemma below is definitional: for an input headed by the given verb,
the earlier guards of the dispatch chain all reduce to `false` and the
branch body is reached. -/

theorem procConnectBranch (env : Env) (rest : List Char) :
    processCmdTrimmed env (chars "CONNECT:" ++ rest) =
      (if indexOfFrom (chars "CONNECT:" ++ rest) ':' 8 > 0 then
         connectToWiFi env
           (subStr (chars "CONNECT:" ++ rest) 8
             (indexOfFrom (chars "CONNECT:" ++ rest) ':' 8).toNat)
           (subFrom (chars "CONNECT:" ++ rest)
             ((indexOfFrom (chars "CONNECT:" ++ rest) ':' 8).toNat + 1))
       else ([chars "ERROR:Invalid CONNECT format. Use CONNECT:SSID:PASSWORD"],
             noEffects)) := rfl

theorem procTcpConnectBranch (env : Env) (rest : List Char) :
    processCmdTrimmed env (chars "TCPCONNECT:" ++ rest) =
      (if lastIndexOf (chars "TCPCONNECT:" ++ rest) ':' > 11 then
         connectTCP env
           (subStr (chars "TCPCONNECT:" ++ rest) 11
             (lastIndexOf (chars "TCPCONNECT:" ++ rest) ':').toNat)
           (atol (subFrom (chars "TCPCONNECT:" ++ rest)
             ((lastIndexOf (chars "TCPCONNECT:" ++ rest) ':').toNat + 1)))
       else ([chars "ERROR:Invalid TCPCONNECT format"], noEffects)) := rfl

theorem procTcpSendBranch (env : Env) (t : List Char) :
    processCmdTrimmed env (chars "TCPSEND:" ++ t) = sendTCP env t := rfl

/-! ### Index computations for the two argument-splitting branches -/

/-- With a colon-free `sid`, the first colon of `CONNECT:<sid>:<pw>` at or
after position 8 sits right after `sid`. -/
theorem indexOfFrom_connect (sid pw : List Char)
    (hs : (sid.all fun c => !(c == ':')) = true) :
    indexOfFrom (chars "CONNECT:" ++ (sid ++ ':' :: pw)) ':' 8
      = Int.ofNat (8 + sid.length) := by
  unfold indexOfFrom
  rw [show (chars "CONNECT:" ++ (sid ++ ':' :: pw)).drop 8 = sid ++ ':' :: pw
        from rfl]
  rw [findIdxC_app_none _ sid _ hs]
  rw [findIdxC_cons_true _ ':' _ (by rfl)]
  simp

/-- With a colon-free `pf`, the last colon of `TCPCONNECT:<host>:<pf>`
sits right after `host` (position 11 plus the host length), whatever
colons `host` itself contains. -/
theorem lastIndexOf_tcpc (host pf : List Char)
    (hp : (pf.all fun c => !(c == ':')) = true) :
    lastIndexOf (chars "TCPCONNECT:" ++ (host ++ ':' :: pf)) ':'
      = Int.ofNat (11 + host.length) := by
  unfold lastIndexOf
  have hrev : (chars "TCPCONNECT:" ++ (host ++ ':' :: pf)).reverse
      = pf.reverse ++ ':' :: (host.reverse ++ (chars "TCPCONNECT:").reverse) := by
    simp [List.reverse_append]
  rw [hrev]
  rw [findIdxC_app_none _ _ _ (all_rev _ pf hp)]
  rw [findIdxC_cons_true _ ':' _ (by rfl)]
  have hlen : (chars "TCPCONNECT:" ++ (host ++ ':' :: pf)).length
      = 11 + (host.length + (pf.length + 1)) := by
    simp [List.length_append, len_tcpconnect_verb]
  simp only [Option.map_some', hlen, List.length_reverse]
  congr 1
  omega

/-- With a colon-free `rest`, the last colon of `TCPCONNECT:<rest>` is
the verb delimiter itself at position 10. -/
theorem lastIndexOf_tcpc_nocolon (rest : List Char)
    (hr : (rest.all fun c => !(c == ':')) = true) :
    lastIndexOf (chars "TCPCONNECT:" ++ rest) ':' = Int.ofNat 10 := by
  unfold lastIndexOf
  have hrev : (chars "TCPCONNECT:" ++ rest).reverse
      = rest.reverse ++ ':' :: chars "TCENNOCPCT" := by
    rw [List.reverse_append]
    rfl
  rw [hrev]
  rw [findIdxC_app_none _ _ _ (all_rev _ rest hr)]
  rw [findIdxC_cons_true _ ':' _ (by rfl)]
  have hlen : (chars "TCPCONNECT:" ++ rest).length = 11 + rest.length := by
    simp [List.length_append, len_tcpconnect_verb]
  simp only [Option.map_some', hlen, List.length_reverse]
  congr 1
  omega

/-- The `CONNECT` branch with a colon in the argument: split at the first
colon, connect with the two fields. -/
theorem connect_split (env : Env) (sid pw : List Char)
    (hs : (sid.all fun c => !(c == ':')) = true) :
    processCmdTrimmed env (chars "CONNECT:" ++ (sid ++ ':' :: pw))
      = connectToWiFi env sid pw := by
  rw [procConnectBranch, indexOfFrom_connect sid pw hs]
  rw [if_pos (show (0 : Int) < Int.ofNat (8 + sid.length) from by
        rw [Int.ofNat_eq_natCast]
        exact_mod_cast (by omega : 0 < 8 + sid.length))]
  rw [show (Int.ofNat (8 + sid.length)).toNat = 8 + sid.length from rfl]
  have h1 : subStr (chars "CONNECT:" ++ (sid ++ ':' :: pw)) 8 (8 + sid.length)
      = sid := by
    unfold subStr
    rw [show chars "CONNECT:" ++ (sid ++ ':' :: pw)
          = (chars "CONNECT:" ++ sid) ++ ':' :: pw from by simp]
    rw [takeApp _ _ _ (by rw [List.length_append, len_connect_verb])]
    exact dropApp _ _ _ len_connect_verb.symm
  have h2 : subFrom (chars "CONNECT:" ++ (sid ++ ':' :: pw)) (8 + sid.length + 1)
      = pw := by
    unfold subFrom
    rw [show chars "CONNECT:" ++ (sid ++ ':' :: pw)
          = ((chars "CONNECT:" ++ sid) ++ [':']) ++ pw from by simp]
    exact dropApp _ _ _ (by simp [List.length_append, len_connect_verb]; omega)
  rw [h1, h2]

/-- The `CONNECT` branch without a colon in the argument: format error. -/
theorem connect_nocolon (env : Env) (rest : List Char)
    (hr : (rest.all fun c => !(c == ':')) = true) :
    processCmdTrimmed env (chars "CONNECT:" ++ rest)
      = ([chars "ERROR:Invalid CONNECT format. Use CONNECT:SSID:PASSWORD"],
         noEffects) := by
  rw [procConnectBranch]
  have hidx : indexOfFrom (chars "CONNECT:" ++ rest) ':' 8 = -1 := by
    unfold indexOfFrom
    rw [show (chars "CONNECT:" ++ rest).drop 8 = rest from rfl]
    rw [findIdxC_none _ _ hr]
  rw [hidx]
  simp

/-- The `TCPCONNECT` branch with a non-empty host: split at the last
colon, connect to the host with the `atol` value of the trailing field. -/
theorem tcpconn_split (env : Env) (host pf : List Char)
    (hp : (pf.all fun c => !(c == ':')) = true) (hh : host ≠ []) :
    processCmdTrimmed env (chars "TCPCONNECT:" ++ (host ++ ':' :: pf))
      = connectTCP env host (atol pf) := by
  rw [procTcpConnectBranch, lastIndexOf_tcpc host pf hp]
  have hpos : 0 < host.length := List.length_pos.mpr hh
  rw [if_pos (show (11 : Int) < Int.ofNat (11 + host.length) from by
        rw [Int.ofNat_eq_natCast]
        exact_mod_cast (by omega : 11 < 11 + host.length))]
  rw [show (Int.ofNat (11 + host.length)).toNat = 11 + host.length from rfl]
  have h1 : subStr (chars "TCPCONNECT:" ++ (host ++ ':' :: pf)) 11 (11 + host.length)
      = host := by
    unfold subStr
    rw [show chars "TCPCONNECT:" ++ (host ++ ':' :: pf)
          = (chars "TCPCONNECT:" ++ host) ++ ':' :: pf from by simp]
    rw [takeApp _ _ _ (by rw [List.length_append, len_tcpconnect_verb])]
    exact dropApp _ _ _ len_tcpconnect_verb.symm
  have h2 : subFrom (chars "TCPCONNECT:" ++ (host ++ ':' :: pf)) (11 + host.length + 1)
      = pf := by
    unfold subFrom
    rw [show chars "TCPCONNECT:" ++ (host ++ ':' :: pf)
          = ((chars "TCPCONNECT:" ++ host) ++ [':']) ++ pf from by simp]
    exact dropApp _ _ _ (by simp [List.length_append, len_tcpconnect_verb]; omega)
  rw [h1, h2]

/-- The `TCPCONNECT` branch with no colon in the argument: the last colon
of the line is the verb delimiter, so the command is rejected. -/
theorem tcpconn_reject_nocolon (env : Env) (rest : List Char)
    (hr : (rest.all fun c => !(c == ':')) = true) :
    processCmdTrimmed env (chars "TCPCONNECT:" ++ rest)
      = ([chars "ERROR:Invalid TCPCONNECT format"], noEffects) := by
  rw [procTcpConnectBranch, lastIndexOf_tcpc_nocolon rest hr]
  simp

/-- The `TCPCONNECT` branch with an empty host field: the last colon sits
at position 11, so the command is rejected. -/
theorem tcpconn_reject_emptyhost (env : Env) (pf : List Char)
    (hp : (pf.all fun c => !(c == ':')) = true) :
    processCmdTrimmed env (chars "TCPCONNECT:" ++ ':' :: pf)
      = ([chars "ERROR:Invalid TCPCONNECT format"], noEffects) := by
  have h := lastIndexOf_tcpc [] pf hp
  rw [show chars "TCPCONNECT:" ++ ([] ++ ':' :: pf) = chars "TCPCONNECT:" ++ ':' :: pf
        from rfl] at h
  rw [procTcpConnectBranch, h]
  simp

/-- With no terminator anywhere in the input, the accumulator emits
nothing and keeps every byte in its buffer. -/
theorem runAccum_nonterm (input : List Char) : ∀ buf : List Char,
    (input.all fun c => !isTermB c) = true →
    runAccum buf input = ([], buf ++ input) := by
  induction input with
  | nil => intro buf _; simp [runAccum]
  | cons c rest ih =>
    intro buf h
    simp only [List.all_cons, Bool.and_eq_true, Bool.not_eq_true'] at h
    rw [show runAccum buf (c :: rest) = runAccum (buf ++ [c]) rest from by
          simp [runAccum, h.1]]
    rw [ih (buf ++ [c]) h.2]
    simp

/-! ### The claims -/

/-- Claim C1, counterexample: feeding the single byte `a` (no terminator)
emits no line at all, while splitting the input on terminators and
discarding empty splits yields the one line `a`. -/
theorem C1_counterexample : (runAccum [] ['a']).1 ≠ specSplitLines ['a'] := by
  decide

/-- Claim C1 (amended): for every byte sequence fed one byte at a time,
the emitted complete lines followed by the still-buffered trailing
segment (when non-empty) are exactly the non-empty splits of the input on
line-feed and carriage-return, in order — so the emitted lines are the
non-empty splits up to the last terminator, with the unterminated
remainder retained in the buffer, which never contains a terminator. -/
theorem C1_amended (input : List Char) :
    (runAccum [] input).1 ++ residualOpt (runAccum [] input).2
        = specSplitLines input
    ∧ ((runAccum [] input).2.all fun c => !isTermB c) = true := by
  have h := runAccum_spec input [] rfl
  simpa using h

/-- Claim C8, counterexample: the buffer of the Line Accumulator is not
bounded — for every candidate bound there is an input (a long enough run
of the byte `a`) whose final buffer exceeds it; no overflow condition
exists in the code. -/
theorem C8_counterexample :
    ¬ ∃ B : Nat, ∀ input : List Char, ((runAccum [] input).2).length ≤ B := by
  rintro ⟨B, hB⟩
  have hall : ((List.replicate (B + 1) 'a').all fun c => !isTermB c) = true := by
    rw [List.all_eq_true]
    intro c hc
    rw [List.eq_of_mem_replicate hc]
    decide
  have h2 := hB (List.replicate (B + 1) 'a')
  rw [runAccum_nonterm _ [] hall] at h2
  simp [List.length_replicate] at h2

/-- Claim C8 (amended): the Line Accumulator imposes no cap and has no
BufferOverflow condition: while no terminator arrives it emits nothing,
discards nothing and retains every byte fed, so the buffer grows without
bound on terminator-free input. -/
theorem C8_amended (input : List Char)
    (h : (input.all fun c => !isTermB c) = true) :
    runAccum [] input = ([], input) := by
  have h2 := runAccum_nonterm input [] h
  simpa using h2

/-- Claim C8, witness for the amended theorem at a concrete input. -/
theorem C8_witness : runAccum [] (chars "abc") = ([], chars "abc") :=
  C8_amended (chars "abc") (by decide)

/-- Claim C2: on a trimmed `CONNECT:<rest>` line whose `<rest>` contains
a colon, the dispatcher splits at the first such colon — the ssid is the
text before it, the password everything after it (further colons
included) — and hands both to the association handler; when `<rest>` has
no colon the command is answered with the CONNECT format error, which
differs from the unknown-command response. -/
theorem C2_connect_first_colon (env : Env) (rest : List Char)
    (htrim : trimC (chars "CONNECT:" ++ rest) = chars "CONNECT:" ++ rest) :
    (∀ sid pw, rest = sid ++ ':' :: pw → (sid.all fun c => !(c == ':')) = true →
        processCommand env (chars "CONNECT:" ++ rest) = connectToWiFi env sid pw
        ∧ (processCommand env (chars "CONNECT:" ++ rest)).2.wifiBegin = [(sid, pw)])
    ∧ ((rest.all fun c => !(c == ':')) = true →
        processCommand env (chars "CONNECT:" ++ rest)
          = ([chars "ERROR:Invalid CONNECT format. Use CONNECT:SSID:PASSWORD"],
             noEffects)
        ∧ [chars "ERROR:Invalid CONNECT format. Use CONNECT:SSID:PASSWORD"]
            ≠ [chars "ERROR:Unknown command: " ++ (chars "CONNECT:" ++ rest)]) := by
  have hpc : processCommand env (chars "CONNECT:" ++ rest)
      = processCmdTrimmed env (chars "CONNECT:" ++ rest) := by
    unfold processCommand
    rw [htrim]
  constructor
  · intro sid pw hsp hs
    subst hsp
    rw [hpc, connect_split env sid pw hs]
    exact ⟨rfl, rfl⟩
  · intro hr
    refine ⟨by rw [hpc]; exact connect_nocolon env rest hr, ?_⟩
    intro heq
    have hx : chars "ERROR:Invalid CONNECT format. Use CONNECT:SSID:PASSWORD"
        = chars "ERROR:Unknown command: " ++ (chars "CONNECT:" ++ rest) := by
      simpa using heq
    have h6 : some 'I' = some 'U' := by
      calc some 'I'
          = (chars "ERROR:Invalid CONNECT format. Use CONNECT:SSID:PASSWORD")[6]? :=
            rfl
        _ = (chars "ERROR:Unknown command: " ++ (chars "CONNECT:" ++ rest))[6]? := by
            rw [hx]
        _ = some 'U' := rfl
    exact absurd h6 (by decide)

/-- Claim C2, witness: `CONNECT:MySSID:pa:ss:word` associates with ssid
`MySSID` and password `pa:ss:word`. -/
theorem C2_witness :
    (processCommand envA (chars "CONNECT:MySSID:pa:ss:word")).2.wifiBegin
      = [(chars "MySSID", chars "pa:ss:word")] := by
  have h := (C2_connect_first_colon envA (chars "MySSID:pa:ss:word") (by decide)).1
      (chars "MySSID") (chars "pa:ss:word") (by decide) (by decide)
  exact h.2

/-- Claim C3, counterexample: the claim mandates splitting
`TCPCONNECT::8080` at the last colon into host `` (empty) and port
`8080` and forwarding it; the code instead rejects the line with the
TCPCONNECT format error and makes no connection attempt. -/
theorem C3_counterexample :
    processCommand envA (chars "TCPCONNECT::8080")
      = ([chars "ERROR:Invalid TCPCONNECT format"], noEffects) := by
  decide

/-- Claim C3 (amended): a trimmed `TCPCONNECT:<rest>` line is split at
the last colon of the line only when that colon lies strictly after
position 11 (a non-empty host field): the host is everything before it
and the port is the trailing field read C-`atol`-style (optional sign
then leading digits, `0` when no digit), and the command is forwarded.
When `<rest>` has no colon, or the last colon immediately follows the
verb (empty host), the command is rejected with the TCPCONNECT format
error instead. -/
theorem C3_amended (env : Env) :
    (∀ host pf, (pf.all fun c => !(c == ':')) = true → host ≠ [] →
        trimC (chars "TCPCONNECT:" ++ (host ++ ':' :: pf))
          = chars "TCPCONNECT:" ++ (host ++ ':' :: pf) →
        processCommand env (chars "TCPCONNECT:" ++ (host ++ ':' :: pf))
          = connectTCP env host (atol pf)
        ∧ (processCommand env (chars "TCPCONNECT:" ++ (host ++ ':' :: pf))).2.tcpConnects
          = [(host, atol pf)])
    ∧ (∀ rest, (rest.all fun c => !(c == ':')) = true →
        trimC (chars "TCPCONNECT:" ++ rest) = chars "TCPCONNECT:" ++ rest →
        processCommand env (chars "TCPCONNECT:" ++ rest)
          = ([chars "ERROR:Invalid TCPCONNECT format"], noEffects))
    ∧ (∀ pf, (pf.all fun c => !(c == ':')) = true →
        trimC (chars "TCPCONNECT:" ++ ':' :: pf) = chars "TCPCONNECT:" ++ ':' :: pf →
        processCommand env (chars "TCPCONNECT:" ++ ':' :: pf)
          = ([chars "ERROR:Invalid TCPCONNECT format"], noEffects)) := by
  refine ⟨?_, ?_, ?_⟩
  · intro host pf hp hh ht
    have hs : processCommand env (chars "TCPCONNECT:" ++ (host ++ ':' :: pf))
        = connectTCP env host (atol pf) := by
      unfold processCommand
      rw [ht]
      exact tcpconn_split env host pf hp hh
    rw [hs]
    exact ⟨rfl, rfl⟩
  · intro rest hr ht
    unfold processCommand
    rw [ht]
    exact tcpconn_reject_nocolon env rest hr
  · intro pf hp ht
    unfold processCommand
    rw [ht]
    exact tcpconn_reject_emptyhost env pf hp

/-- Claim C3, witness: `TCPCONNECT:10.0.0.5:8080` is forwarded as a
connection attempt to host `10.0.0.5`, port `8080`. -/
theorem C3_witness :
    (processCommand envA (chars "TCPCONNECT:10.0.0.5:8080")).2.tcpConnects
      = [(chars "10.0.0.5", (8080 : Int))] := by
  have h := (C3_amended envA).1 (chars "10.0.0.5") (chars "8080")
      (by decide) (by decide) (by decide)
  exact h.2.trans (by decide)

/-- Claim C4: dispatching `TCPSEND:<payload>`, for any payload, while no
TCP session is established emits exactly the one line
`ERROR:Not connected` and performs no collaborator call at all — in
particular no association query or mutation. -/
theorem C4_tcpsend_not_connected (env : Env) (payload : List Char)
    (h : env.tcpConnected = false) :
    processCommand env (chars "TCPSEND:" ++ payload)
      = ([chars "ERROR:Not connected"], noEffects) := by
  unfold processCommand
  rw [trimC_tcpsend, procTcpSendBranch]
  unfold sendTCP
  rw [h]
  simp

/-- Claim C4, witness at a concrete payload and environment. -/
theorem C4_witness :
    processCommand envA (chars "TCPSEND:hello")
      = ([chars "ERROR:Not connected"], noEffects) :=
  C4_tcpsend_not_connected envA (chars "hello") rfl

/-- Claim C5: handling `CONNECT` always terminates within the fixed
attempt ceiling — at most 20 polls of 500 ms each, hence at most 10
seconds of delay — after emitting `CONNECTING:<ssid>` first and invoking
association once with the given credentials; afterwards it emits
`OK:Connected` and `IP:<addr>` when the final status poll reports an
association, and `ERROR:Connection failed` otherwise. -/
theorem C5_connect_terminates_bounded (env : Env) (sid pw : List Char) :
    pollCount env.assocStatus 0 20 ≤ 20
    ∧ (connectToWiFi env sid pw).2.delayMs = 500 * pollCount env.assocStatus 0 20
    ∧ (connectToWiFi env sid pw).2.delayMs ≤ 10000
    ∧ (connectToWiFi env sid pw).2.wifiBegin = [(sid, pw)]
    ∧ (connectToWiFi env sid pw).1.head? = some (chars "CONNECTING:" ++ sid)
    ∧ (connectToWiFi env sid pw).1.drop 2
      = (if env.assocStatus (pollCount env.assocStatus 0 20 + 1)
         then [chars "OK:Connected", chars "IP:" ++ env.localAddr]
         else [chars "ERROR:Connection failed"]) := by
  refine ⟨pollCount_le _ 20 0, rfl, ?_, rfl, rfl, rfl⟩
  have h := pollCount_le env.assocStatus 20 0
  show 500 * pollCount env.assocStatus 0 20 ≤ 10000
  omega

/-- Claim C6: `SCAN` emits `SCANNING...` first; with zero reported
networks exactly one further line `SCAN:No networks found` follows,
otherwise `SCAN:Found N networks` followed by exactly one
`NETWORK:<ssid>:<rssi>:<OPEN|SECURED>` line per result in provider
order, where a network is `OPEN` exactly when its cipher is the
open/no-auth value, and `SECURED` in every other case. -/
theorem C6_scan_output (env : Env) :
    (scanNetworks env).1
      = chars "SCANNING..."
        :: (if env.scanList = [] then [chars "SCAN:No networks found"]
            else (chars "SCAN:Found " ++ natChars env.scanList.length
                    ++ chars " networks")
              :: env.scanList.map (fun e =>
                  chars "NETWORK:" ++ e.essid ++ chars ":" ++ intChars e.rssi
                    ++ chars ":"
                    ++ (if e.enc = WIFI_AUTH_OPEN then chars "OPEN"
                        else chars "SECURED"))) := by
  unfold scanNetworks
  by_cases h : env.scanList = []
  · simp [h]
  · have hlen : ¬ env.scanList.length = 0 := by
      simpa [List.length_eq_zero] using h
    simp [h, hlen, scanLinesOut_map]

/-- Claim C7: in every tick, the inbound poller emits nothing when no TCP
session is connected; it emits at most one line; and when a session is
connected and bytes are buffered it drains all of them into exactly one
`TCPDATA:` line, leaving nothing buffered for a later tick. -/
theorem C7_poller (conn : Bool) (avail : List Char) :
    (conn = false → pollInbound conn avail = ([], avail))
    ∧ (pollInbound conn avail).1.length ≤ 1
    ∧ (conn = true → avail ≠ [] →
        pollInbound conn avail = ([chars "TCPDATA:" ++ avail], [])) := by
  refine ⟨?_, ?_, ?_⟩
  · intro h
    subst h
    simp [pollInbound]
  · unfold pollInbound
    cases h2 : (conn && !avail.isEmpty) <;> simp [h2]
  · intro hc ha
    subst hc
    have hne : avail.isEmpty = false := by
      cases avail with
      | nil => exact absurd rfl ha
      | cons x xs => rfl
    simp [pollInbound, hne, drainAll_eq]

/-- Claim C7, witness: two buffered bytes drain into one line. -/
theorem C7_witness : pollInbound true (chars "hi") = ([chars "TCPDATA:hi"], []) := by
  have h := (C7_poller true (chars "hi")).2.2 rfl (by decide)
  exact h

/-- Claim C9: each of the bare trimmed lines `CONNECT`, `TCPCONNECT` and
`TCPSEND` (the argument-taking verbs without their trailing colon) misses
its verb branch and is answered by the unknown-command branch, with no
collaborator call. -/
theorem C9_bare_verbs_unknown (env : Env) :
    processCommand env (chars "CONNECT")
        = ([chars "ERROR:Unknown command: CONNECT"], noEffects)
    ∧ processCommand env (chars "TCPCONNECT")
        = ([chars "ERROR:Unknown command: TCPCONNECT"], noEffects)
    ∧ processCommand env (chars "TCPSEND")
        = ([chars "ERROR:Unknown command: TCPSEND"], noEffects) :=
  ⟨rfl, rfl, rfl⟩

/-- Claim C10: a trimmed `TCPCONNECT::<port>` line (empty host, the last
colon right after the verb delimiter) is rejected with the TCPCONNECT
format error and no connection is attempted, while a trimmed
`TCPCONNECT:<host>:<pf>` line with a non-empty host and an empty or
digit-free trailing field is not rejected: the connection is attempted at
port 0. -/
theorem C10_tcpconnect_edge (env : Env) :
    (∀ pf, (pf.all fun c => !(c == ':')) = true →
        trimC (chars "TCPCONNECT:" ++ ':' :: pf) = chars "TCPCONNECT:" ++ ':' :: pf →
        processCommand env (chars "TCPCONNECT:" ++ ':' :: pf)
          = ([chars "ERROR:Invalid TCPCONNECT format"], noEffects))
    ∧ (∀ host pf, host ≠ [] → (pf.all fun c => !(c == ':')) = true →
        (pf.all fun c => !c.isDigit) = true →
        trimC (chars "TCPCONNECT:" ++ (host ++ ':' :: pf))
          = chars "TCPCONNECT:" ++ (host ++ ':' :: pf) →
        (processCommand env (chars "TCPCONNECT:" ++ (host ++ ':' :: pf))).2.tcpConnects
          = [(host, 0)]
        ∧ (processCommand env (chars "TCPCONNECT:" ++ (host ++ ':' :: pf))).1.head?
          = some (chars "TCP:Connecting to " ++ host ++ chars ":" ++ intChars 0)) := by
  constructor
  · intro pf hp ht
    unfold processCommand
    rw [ht]
    exact tcpconn_reject_emptyhost env pf hp
  · intro host pf hh hpc hpd ht
    have hz : atol pf = 0 := atol_zero pf hpd
    have hs : processCommand env (chars "TCPCONNECT:" ++ (host ++ ':' :: pf))
        = connectTCP env host 0 := by
      unfold processCommand
      rw [ht, tcpconn_split env host pf hpc hh, hz]
    rw [hs]
    exact ⟨rfl, rfl⟩

/-- Claim C10, witness: `TCPCONNECT::9000` is rejected;
`TCPCONNECT:example.com:` (empty port field) attempts port 0. -/
theorem C10_witness :
    processCommand envA (chars "TCPCONNECT::9000")
      = ([chars "ERROR:Invalid TCPCONNECT format"], noEffects)
    ∧ (processCommand envA (chars "TCPCONNECT:example.com:")).2.tcpConnects
      = [(chars "example.com", 0)] := by
  constructor
  · exact (C10_tcpconnect_edge envA).1 (chars "9000") (by decide) (by decide)
  · exact ((C10_tcpconnect_edge envA).2 (chars "example.com") [] (by decide) rfl rfl
      (by decide)).1
